import Mathlib

/-
Verification of kelvins/GoApiTutorial: a REST API over one `users` table.

The repository holds three variants of model.go (the Sprintf variant that
formats values into the SQL text, a stub, and a parameterized variant using
driver placeholders), and app.go's request handlers in the README's code
blocks. The definitions below embed, in order:
  - the record type `user` (model.go);
  - the SQL statement texts the Sprintf variant builds with fmt.Sprintf;
  - the (text, bind arguments) statements of the parameterized variant;
  - the driver-level behaviour of the five data-access functions
    (getUser, updateUser, deleteUser, createUser, getUsers), over an
    explicit model of the driver's possible answers;
  - a table-state model (Db) giving the semantics of the well-formed
    parameterized statements on the users table;
  - the request handlers of app.go (App.getUser, App.getUsers,
    App.createUser, App.updateUser, App.deleteUser) with json.Marshal
    modelled for the exact payload shapes they emit.
-/

namespace GoApi

/-- Record type from model.go: ID, Name, Age with json tags id, name, age. -/
structure user where
  ID   : Int
  Name : String
  Age  : Int
deriving Repr, DecidableEq

/-! SQL statement texts built by the Sprintf variant of model.go
(fmt.Sprintf with %d rendered as Go renders an int, %s spliced verbatim). -/

/-- Statement text of the Sprintf-variant getUser:
fmt.Sprintf("SELECT name, age FROM users WHERE id=%d", u.ID). -/
def getUserStatement (id : Int) : String :=
  "SELECT name, age FROM users WHERE id=" ++ toString id

/-- Statement text of the Sprintf-variant updateUser:
fmt.Sprintf("UPDATE users SET name='%s', age=%d WHERE id=%d", u.Name, u.Age, u.ID). -/
def updateUserStatement (name : String) (age id : Int) : String :=
  "UPDATE users SET name='" ++ name ++ "', age=" ++ toString age
    ++ " WHERE id=" ++ toString id

/-- Statement text of the Sprintf-variant deleteUser:
fmt.Sprintf("DELETE FROM users WHERE id=%d", u.ID). -/
def deleteUserStatement (id : Int) : String :=
  "DELETE FROM users WHERE id=" ++ toString id

/-- Statement text of the Sprintf-variant createUser:
fmt.Sprintf("INSERT INTO users(name, age) VALUES('%s', %d)", u.Name, u.Age). -/
def createUserStatement (name : String) (age : Int) : String :=
  "INSERT INTO users(name, age) VALUES('" ++ name ++ "', " ++ toString age ++ ")"

/-- Statement text of the Sprintf-variant getUsers:
fmt.Sprintf("SELECT id, name, age FROM users LIMIT %d OFFSET %d", count, start). -/
def getUsersStatement (count start : Int) : String :=
  "SELECT id, name, age FROM users LIMIT " ++ toString count
    ++ " OFFSET " ++ toString start

/-- Characters after the first quote of a statement text; none when the
text has no quote. -/
def afterQuote : List Char → Option (List Char)
  | [] => none
  | c :: rest => if c = '\'' then some rest else afterQuote rest

/-- Characters up to the next quote; none when no closing quote follows. -/
def upToQuote : List Char → Option (List Char)
  | [] => none
  | c :: rest => if c = '\'' then some [] else (upToQuote rest).map (c :: ·)

/-- Lexing of the first single-quoted SQL string literal of a statement
text: standard SQL ends the literal at the next quote character. -/
def sqlQuotedLiteral (s : String) : Option String :=
  match afterQuote s.data with
  | none => none
  | some rest =>
    match upToQuote rest with
    | none => none
    | some lit => some ⟨lit⟩

/-- Value bound at driver level by the parameterized variant. -/
inductive SqlValue where
  | int : Int → SqlValue
  | str : String → SqlValue
deriving Repr, DecidableEq

/-- What the parameterized variant hands to the driver: the statement text
and the bind arguments, exactly as db.QueryRow / db.Exec receive them. -/
structure Stmt where
  text : String
  args : List SqlValue
deriving Repr, DecidableEq

/-- Parameterized-variant getUser:
db.QueryRow("SELECT name, age FROM users WHERE id=$1", u.ID). -/
def getUserStmtP (id : Int) : Stmt :=
  ⟨"SELECT name, age FROM users WHERE id=$1", [.int id]⟩

/-- Parameterized-variant updateUser:
db.Exec("UPDATE users SET name=$1, age=$2 WHERE id=$3", u.Name, u.Age, u.ID). -/
def updateUserStmtP (name : String) (age id : Int) : Stmt :=
  ⟨"UPDATE users SET name=$1, age=$2 WHERE id=$3", [.str name, .int age, .int id]⟩

/-- Parameterized-variant deleteUser:
db.Exec("DELETE FROM users WHERE id=$1", u.ID). -/
def deleteUserStmtP (id : Int) : Stmt :=
  ⟨"DELETE FROM users WHERE id=$1", [.int id]⟩

/-- Parameterized-variant createUser:
db.QueryRow("INSERT INTO users(name, age) VALUES($1, $2) RETURNING id", u.Name, u.Age). -/
def createUserStmtP (name : String) (age : Int) : Stmt :=
  ⟨"INSERT INTO users(name, age) VALUES($1, $2) RETURNING id",
   [.str name, .int age]⟩

/-- Parameterized-variant getUsers:
db.Query("SELECT id, name, age FROM users LIMIT $1 OFFSET $2", count, start). -/
def getUsersStmtP (count start : Int) : Stmt :=
  ⟨"SELECT id, name, age FROM users LIMIT $1 OFFSET $2", [.int count, .int start]⟩

/-! Driver-level behaviour of the five data-access functions. Each function
is embedded over an explicit model of the one driver answer it consumes,
so the embedding covers every outcome database/sql can hand the code. -/

/-- Error a data-access call returns: database/sql's sql.ErrNoRows sentinel,
or any other driver error carrying its message. -/
inductive SqlError where
  | errNoRows
  | other : String → SqlError
deriving Repr, DecidableEq

/-- Message of an error, as Go's err.Error() renders it. -/
def errMessage : SqlError → String
  | .errNoRows => "sql: no rows in result set"
  | .other m => m

/-- Answer of db.QueryRow(...).Scan(&u.Name, &u.Age): one matching row with
its name and age, zero matching rows, or any other driver failure. -/
inductive RowResult where
  | row : String → Int → RowResult
  | noRows
  | failure : String → RowResult
deriving Repr, DecidableEq

/-- Answer of db.Exec: success with the number of rows affected, or a
driver failure. -/
inductive ExecResult where
  | ok : Nat → ExecResult
  | failure : String → ExecResult
deriving Repr, DecidableEq

/-- Answer of db.QueryRow("SELECT LAST_INSERT_ID()").Scan(&u.ID). -/
inductive ScanIdResult where
  | got : Int → ScanIdResult
  | failure : String → ScanIdResult
deriving Repr, DecidableEq

/-- One row handed to rows.Scan inside the getUsers loop: either it scans
into a user, or Scan fails. -/
inductive RowScan where
  | ok : user → RowScan
  | failure : String → RowScan
deriving Repr, DecidableEq

/-- Answer of db.Query in getUsers: the sequence of rows, or a failure. -/
inductive QueryResult where
  | rows : List RowScan → QueryResult
  | failure : String → QueryResult
deriving Repr, DecidableEq

/-- Data-access getUser (model.go): Scan writes only u.Name and u.Age; the
method returns the pair (the user as left in memory, the error returned).
Zero rows surface as sql.ErrNoRows; on any error the struct is unchanged. -/
def getUser (u : user) (res : RowResult) : user × Option SqlError :=
  match res with
  | .row n a => ({ u with Name := n, Age := a }, none)
  | .noRows => (u, some .errNoRows)
  | .failure e => (u, some (.other e))

/-- Data-access updateUser (model.go): `_, err := db.Exec(...); return err` -
the affected-row count is discarded. -/
def updateUser (res : ExecResult) : Option SqlError :=
  match res with
  | .ok _ => none
  | .failure e => some (.other e)

/-- Data-access deleteUser (model.go): `_, err := db.Exec(...); return err` -
the affected-row count is discarded. -/
def deleteUser (res : ExecResult) : Option SqlError :=
  match res with
  | .ok _ => none
  | .failure e => some (.other e)

/-- Data-access createUser (Sprintf/MySQL variant of model.go): Exec the
insert; on error return it (u untouched); otherwise scan LAST_INSERT_ID()
into u.ID; on scan error return it (u untouched); else return the user with
the generated id and no error. -/
def createUser (u : user) (ins : ExecResult) (lastId : ScanIdResult) :
    user × Option SqlError :=
  match ins with
  | .failure e => (u, some (.other e))
  | .ok _ =>
    match lastId with
    | .failure e => (u, some (.other e))
    | .got i => ({ u with ID := i }, none)

/-- Loop body of getUsers (model.go): starting from the slice built so far,
scan each remaining row; a Scan error returns (nil, err), discarding every
row already scanned; otherwise append and continue. -/
def getUsersLoop (users : List user) :
    List RowScan → Option (List user) × Option SqlError
  | [] => (some users, none)
  | .failure e :: _ => (none, some (.other e))
  | .ok u :: rest => getUsersLoop (users ++ [u]) rest

/-- Data-access getUsers (model.go): db.Query error returns (nil, err);
otherwise the loop starts from the non-nil empty slice `[]user{}`. The Go
slice is modelled as Option (List user): none is Go's nil slice. -/
def getUsers (res : QueryResult) : Option (List user) × Option SqlError :=
  match res with
  | .failure e => (none, some (.other e))
  | .rows rs => getUsersLoop [] rs

/-! Table-state semantics: what the well-formed parameterized statements do
to the users table, for the end-to-end claims (round trip, idempotent
delete, fetch after delete). MySQL auto-increment is modelled by nextId. -/

/-- State of the users table: its rows and the next auto-increment id. -/
structure Db where
  rows : List user
  nextId : Int
deriving Repr, DecidableEq

/-- Row the single-row select `WHERE id=?` matches: the first (on a table
keyed by id, the only) row carrying that id. -/
def findRow (db : Db) (id : Int) : Option user :=
  db.rows.find? (fun r => r.ID == id)

/-- Driver answer to the single-row SELECT name, age ... WHERE id=?:
the matching row's fields, or the no-rows condition. -/
def queryRowUser (db : Db) (id : Int) : RowResult :=
  match findRow db id with
  | some r => .row r.Name r.Age
  | none => .noRows

/-- Effect of UPDATE users SET name=?, age=? WHERE id=?: rewrite the
matching rows; the statement itself succeeds whether any row matched. -/
def execUpdate (db : Db) (name : String) (age id : Int) : Db × ExecResult :=
  (⟨db.rows.map (fun r => if r.ID == id then { r with Name := name, Age := age } else r),
    db.nextId⟩,
   .ok (db.rows.filter (fun r => r.ID == id)).length)

/-- Effect of DELETE FROM users WHERE id=?: drop the matching rows; the
statement itself succeeds whether any row matched. -/
def execDelete (db : Db) (id : Int) : Db × ExecResult :=
  (⟨db.rows.filter (fun r => !(r.ID == id)), db.nextId⟩,
   .ok (db.rows.filter (fun r => r.ID == id)).length)

/-- Effect of INSERT INTO users(name, age) VALUES(?, ?): append a row with
the generated auto-increment id and return that id. -/
def execInsert (db : Db) (name : String) (age : Int) : Db × Int :=
  (⟨db.rows ++ [⟨db.nextId, name, age⟩], db.nextId + 1⟩, db.nextId)

/-! Request handlers of app.go (README code blocks), with json.Marshal
modelled for the exact payload shapes the handlers emit. -/

/-- HTTP response a handler writes: status code and marshalled body. -/
structure HttpResponse where
  code : Nat
  body : String
deriving Repr, DecidableEq

/-- Body json.Marshal produces for the user struct: fields in declaration
order under their json tags id, name, age. -/
def marshalUser (u : user) : String :=
  "\x7b\x22id\x22:" ++ toString u.ID ++ ",\x22name\x22:\x22" ++ u.Name
    ++ "\x22,\x22age\x22:" ++ toString u.Age ++ "\x7d"

/-- Body json.Marshal produces for a []user value; a nil slice marshals to
null, a non-nil slice to a JSON array. -/
def marshalSlice : Option (List user) → String
  | none => "null"
  | some us => "[" ++ String.intercalate "," (us.map marshalUser) ++ "]"

/-- Body json.Marshal produces for a one-entry map[string]string, the shape
respondWithError and the delete handler pass it. -/
def marshalMap1 (k v : String) : String :=
  "\x7b\x22" ++ k ++ "\x22:\x22" ++ v ++ "\x22\x7d"

/-- App.respondWithJSON: write the status code and the marshalled payload. -/
def respondWithJSON (code : Nat) (payload : String) : HttpResponse :=
  ⟨code, payload⟩

/-- App.respondWithError: respondWithJSON with map[string]string{"error": message}. -/
def respondWithError (code : Nat) (message : String) : HttpResponse :=
  respondWithJSON code (marshalMap1 "error" message)

/-- Handler App.getUser, after the router matched a numeric id: build
u := user{ID: id}, call the data-access getUser, switch on the error
(sql.ErrNoRows gives 404 "User not found", anything else 500 with the error
text), else 200 with the user. -/
def App.getUser (id : Int) (res : RowResult) : HttpResponse :=
  let u : user := ⟨id, "", 0⟩
  match GoApi.getUser u res with
  | (u1, none) => respondWithJSON 200 (marshalUser u1)
  | (_, some .errNoRows) => respondWithError 404 "User not found"
  | (_, some (.other e)) => respondWithError 500 e

/-- Clamp of App.getUsers on count: `if count > 10 || count < 1 { count = 10 }`. -/
def clampCount (count : Int) : Int :=
  if count > 10 ∨ count < 1 then 10 else count

/-- Clamp of App.getUsers on start: `if start < 0 { start = 0 }`. -/
def clampStart (start : Int) : Int :=
  if start < 0 then 0 else start

/-- Handler App.getUsers: clamp count and start, call the data-access
getUsers with them (q models the driver's answer as a function of the count
and start actually passed), 500 on error, else 200 with the marshalled
slice. -/
def App.getUsers (count start : Int) (q : Int → Int → QueryResult) : HttpResponse :=
  match GoApi.getUsers (q (clampCount count) (clampStart start)) with
  | (_, some e) => respondWithError 500 (errMessage e)
  | (us, none) => respondWithJSON 200 (marshalSlice us)

/-- Handler App.createUser, after a well-formed body decoded into `body`
(any id the body carried included): call the data-access createUser, 500
with the error text on failure, else 201 with the record createUser filled. -/
def App.createUser (body : user) (ins : ExecResult) (lastId : ScanIdResult) :
    HttpResponse :=
  match GoApi.createUser body ins lastId with
  | (u1, none) => respondWithJSON 201 (marshalUser u1)
  | (_, some e) => respondWithError 500 (errMessage e)

/-- Record App.updateUser passes to the data-access updateUser: the decoded
body with its ID overwritten by the path id (`u.ID = id`). -/
def putRecord (pathId : Int) (body : user) : user :=
  { body with ID := pathId }

/-- Handler App.updateUser, after a numeric path id and a well-formed body:
overwrite the body's id with the path id, call the data-access updateUser,
500 with the error text on failure, else 200 with the record as given. -/
def App.updateUser (pathId : Int) (body : user) (res : ExecResult) : HttpResponse :=
  match GoApi.updateUser res with
  | some e => respondWithError 500 (errMessage e)
  | none => respondWithJSON 200 (marshalUser (putRecord pathId body))

/-- Handler App.deleteUser, after a numeric path id: call the data-access
deleteUser, 500 with the error text on failure, else 200 with
map[string]string{"result": "success"}. -/
def App.deleteUser (res : ExecResult) : HttpResponse :=
  match GoApi.deleteUser res with
  | some e => respondWithError 500 (errMessage e)
  | none => respondWithJSON 200 (marshalMap1 "result" "success")

/-! End-to-end requests over the table state: handler composed with the
semantics of the statement it issues. -/

/-- GET /user/id against table state db. -/
def getUserRequest (db : Db) (id : Int) : HttpResponse :=
  App.getUser id (queryRowUser db id)

/-- DELETE /user/id against table state db: the new state and the response. -/
def deleteUserRequest (db : Db) (id : Int) : Db × HttpResponse :=
  let p := execDelete db id
  (p.1, App.deleteUser p.2)

/-- PUT /user/id with decoded body against table state db: the new state
and the response. -/
def updateUserRequest (db : Db) (pathId : Int) (body : user) : Db × HttpResponse :=
  let u := putRecord pathId body
  let p := execUpdate db u.Name u.Age u.ID
  (p.1, App.updateUser pathId body p.2)

/-- Spec-glossary clamp of count to the inclusive range [1,10], constraining
an out-of-range value to the nearest valid bound; stated from the glossary's
words for comparison with the handler's clampCount. -/
def clampCountNearestBound (count : Int) : Int :=
  if count < 1 then 1 else if count > 10 then 10 else count

/-! Theorems. -/

/-- C1: in the Sprintf variant the SQL text handed to the driver depends on
the user-supplied values - two runs of each of the five operations with
different values produce different statement strings - whereas the
parameterized variant hands the same fixed text on both runs, the values
appearing only among the bind arguments. -/
theorem sprintf_sql_text_depends_on_values :
    (getUserStatement 1 ≠ getUserStatement 2
      ∧ updateUserStatement "a" 1 1 ≠ updateUserStatement "b" 2 2
      ∧ deleteUserStatement 1 ≠ deleteUserStatement 2
      ∧ createUserStatement "a" 1 ≠ createUserStatement "b" 2
      ∧ getUsersStatement 10 0 ≠ getUsersStatement 10 5)
    ∧ ((getUserStmtP 1).text = (getUserStmtP 2).text
      ∧ (updateUserStmtP "a" 1 1).text = (updateUserStmtP "b" 2 2).text
      ∧ (deleteUserStmtP 1).text = (deleteUserStmtP 2).text
      ∧ (createUserStmtP "a" 1).text = (createUserStmtP "b" 2).text
      ∧ (getUsersStmtP 10 0).text = (getUsersStmtP 10 5).text)
    ∧ (getUserStmtP 1).args = [.int 1] ∧ (getUserStmtP 2).args = [.int 2] := by
  decide

/-- C2 counterexample: the handler maps count = 0 to 10, not to the nearest
valid bound of [1,10], which is 1. -/
theorem count_zero_not_nearest_bound :
    clampCount 0 = 10 ∧ clampCountNearestBound 0 = 1
      ∧ clampCount 0 ≠ clampCountNearestBound 0 := by
  decide

/-- C2 amended: the list handler passes to getUsers a count inside [1,10]
and a start ≥ 0 and answers only 200 or 500, never an error for
out-of-range values; but every out-of-range count - 0 and negative values
included - maps to 10, the upper bound, not to the nearest valid bound. -/
theorem getUsers_handler_clamps (count start : Int) :
    (1 ≤ clampCount count ∧ clampCount count ≤ 10)
    ∧ 0 ≤ clampStart start
    ∧ clampCount 0 = 10
    ∧ clampCount (-7) = 10
    ∧ clampCount 11 = 10
    ∧ ∀ q : Int → Int → QueryResult,
        (App.getUsers count start q).code = 200
          ∨ (App.getUsers count start q).code = 500 := by
  refine ⟨⟨?_, ?_⟩, ?_, by decide, by decide, by decide, ?_⟩
  · unfold clampCount; split <;> omega
  · unfold clampCount; split <;> omega
  · unfold clampStart; split <;> omega
  · intro q
    unfold App.getUsers
    rcases h : GoApi.getUsers (q (clampCount count) (clampStart start)) with ⟨us, e⟩
    cases e with
    | none => left; rfl
    | some e1 => right; rfl

/-- C3: the Sprintf variant does not round-trip a name containing a single
quote: the statement text it builds for ("O'Brien", 30) carries, as its SQL
string literal, "O" and not "O'Brien"; the parameterized-statement
semantics round-trips that very pair. -/
theorem quote_in_name_breaks_sprintf_roundtrip :
    sqlQuotedLiteral (createUserStatement "O'Brien" 30) = some "O"
    ∧ ("O" : String) ≠ "O'Brien"
    ∧ sqlQuotedLiteral (createUserStatement "test user" 30) = some "test user"
    ∧ (execInsert ⟨[], 1⟩ "O'Brien" 30).2 = 1
    ∧ findRow (execInsert ⟨[], 1⟩ "O'Brien" 30).1 1 = some ⟨1, "O'Brien", 30⟩ := by
  decide

/-- C4: the single-user fetch returns sql.ErrNoRows exactly when the table
holds no row with the requested id, the handler then answers 404 with the
body for "User not found" - and only then - and every other data-access
failure is answered 500 with the error text. -/
theorem getUser_notFound_iff_zero_rows (db : Db) (id : Int) :
    ((findRow db id = none) ↔
      (getUser ⟨id, "", 0⟩ (queryRowUser db id)).2 = some SqlError.errNoRows)
    ∧ ((findRow db id = none) ↔
      getUserRequest db id = ⟨404, marshalMap1 "error" "User not found"⟩)
    ∧ ∀ e : String, App.getUser id (.failure e) = ⟨500, marshalMap1 "error" e⟩ := by
  refine ⟨?_, ?_, fun e => rfl⟩
  · cases h : findRow db id <;> simp [getUser, queryRowUser, h]
  · cases h : findRow db id <;>
      simp [getUserRequest, App.getUser, getUser, queryRowUser, h,
        respondWithJSON, respondWithError, HttpResponse.mk.injEq]

/-- Helper for C5: after the delete statement runs, no row with the deleted
id remains to be found. -/
theorem findRow_execDelete (db : Db) (id : Int) :
    findRow (execDelete db id).1 id = none := by
  simp only [findRow, execDelete, List.find?_eq_none]
  intro x hx
  rcases List.mem_filter.mp hx with ⟨-, h⟩
  simpa using h

/-- C5: updateUser and deleteUser return no error whenever the driver call
succeeds, whatever the affected-row count; hence DELETE answers 200 with
the success body on any table state - an id with no row included - twice in
a row, and a subsequent fetch of that id answers 404. -/
theorem delete_ignores_row_count (n : Nat) (db : Db) (id : Int) :
    updateUser (.ok n) = none
    ∧ deleteUser (.ok n) = none
    ∧ (deleteUserRequest db id).2 = ⟨200, marshalMap1 "result" "success"⟩
    ∧ (deleteUserRequest (deleteUserRequest db id).1 id).2
        = ⟨200, marshalMap1 "result" "success"⟩
    ∧ getUserRequest (deleteUserRequest db id).1 id
        = ⟨404, marshalMap1 "error" "User not found"⟩ := by
  refine ⟨rfl, rfl, rfl, rfl, ?_⟩
  have h := findRow_execDelete db id
  simp [getUserRequest, App.getUser, getUser, queryRowUser, deleteUserRequest, h,
    respondWithJSON, respondWithError]

/-- C6: the record the update handler passes to updateUser carries the id
parsed from the path whatever id the body carried, and the 200 response is
exactly that record - path id with the body's name and age - independent of
the table state, so not re-fetched from storage. -/
theorem put_path_id_authoritative (pid x y : Int) (nm : String) (ag : Int)
    (db : Db) (body : user) :
    (putRecord pid body).ID = pid
    ∧ putRecord pid ⟨x, nm, ag⟩ = putRecord pid ⟨y, nm, ag⟩
    ∧ (updateUserRequest db pid body).2
        = ⟨200, marshalUser ⟨pid, body.Name, body.Age⟩⟩ := by
  exact ⟨rfl, rfl, rfl⟩

/-- C7: the 201 response to create carries the database-generated id and is
the same response whatever id the body supplied; on an insert failure or a
failure to read the generated id, the handler answers 500 with the error
text and createUser leaves the record's id untouched. -/
theorem create_id_generated_not_from_body (body : user) (gen : Int) (n : Nat)
    (x y : Int) (nm : String) (ag : Int) (e : String)
    (ins : ExecResult) (lastId : ScanIdResult) :
    App.createUser body (.ok n) (.got gen)
        = ⟨201, marshalUser ⟨gen, body.Name, body.Age⟩⟩
    ∧ App.createUser ⟨x, nm, ag⟩ ins lastId = App.createUser ⟨y, nm, ag⟩ ins lastId
    ∧ App.createUser body (.failure e) lastId = ⟨500, marshalMap1 "error" e⟩
    ∧ App.createUser body (.ok n) (.failure e) = ⟨500, marshalMap1 "error" e⟩
    ∧ (createUser body (.failure e) lastId).1 = body
    ∧ (createUser body (.ok n) (.failure e)).1 = body := by
  refine ⟨rfl, ?_, rfl, rfl, rfl, rfl⟩
  cases ins with
  | failure e2 => rfl
  | ok m =>
    cases lastId with
    | got i => rfl
    | failure e2 => rfl

/-- C8: when the query succeeds and returns zero rows, getUsers returns the
non-nil empty slice with no error, which marshals to the empty array, and
the list handler answers 200 with body "[]". -/
theorem getUsers_empty_table_serializes_empty_array (count start : Int) :
    getUsers (.rows []) = (some [], none)
    ∧ marshalSlice (getUsers (.rows [])).1 = "[]"
    ∧ App.getUsers count start (fun _ _ => .rows []) = ⟨200, "[]"⟩ := by
  exact ⟨rfl, rfl, rfl⟩

/-- C9: the data-access getUser never changes the ID field - on success as
on every failure - so the 200 response to a fetch serializes the user under
the id parsed from the path. -/
theorem getUser_preserves_id (u : user) (res : RowResult) (db : Db) (id : Int) :
    (getUser u res).1.ID = u.ID
    ∧ getUserRequest db id
        = (match findRow db id with
           | some r => ⟨200, marshalUser ⟨id, r.Name, r.Age⟩⟩
           | none => ⟨404, marshalMap1 "error" "User not found"⟩) := by
  constructor
  · cases res <;> rfl
  · cases h : findRow db id <;>
      simp [getUserRequest, App.getUser, getUser, queryRowUser, h,
        respondWithJSON, respondWithError]

/-- Helper for C10: from any slice built so far, the getUsers loop ends in
a full scanned slice with no error or in the nil slice with an error. -/
theorem getUsersLoop_cases (rs : List RowScan) : ∀ acc : List user,
    ((getUsersLoop acc rs).1 = none ∧ ((getUsersLoop acc rs).2).isSome = true)
    ∨ (((getUsersLoop acc rs).1).isSome = true ∧ (getUsersLoop acc rs).2 = none) := by
  induction rs with
  | nil => intro acc; right; simp [getUsersLoop]
  | cons head rest ih =>
    intro acc
    cases head with
    | ok u => simpa [getUsersLoop] using ih (acc ++ [u])
    | failure e => left; simp [getUsersLoop]

/-- C10: getUsers is all-or-nothing - every outcome is either the nil slice
together with an error (any scanned rows discarded) or a usable slice with
no error; never a partial slice beside an error. -/
theorem getUsers_all_or_nothing (res : QueryResult) :
    ((getUsers res).1 = none ∧ ((getUsers res).2).isSome = true)
    ∨ (((getUsers res).1).isSome = true ∧ (getUsers res).2 = none) := by
  cases res with
  | failure e => left; simp [getUsers]
  | rows rs => simpa [getUsers] using getUsersLoop_cases rs []

end GoApi
